import Mathlib

/-!
Shallow embedding of `src/Matrix.h` (repository MagicSquare): a fixed-shape
integer matrix with caller-supplied comparison constraints, row/column
access, and a three-kind exception taxonomy.

C++ semantics modelled:
* `size_t` indices become `Nat`; matrix elements (`int`) become `Int`.
* A member function that may `throw Exception(t)` returns `MResult α`:
  `.ok a` for normal return, `.err t` for a thrown exception of kind `t`,
  and `.ub` for undefined behaviour (an out-of-bounds `vector::operator[]`
  access, which the source performs on some inputs).
* The static `validationMap` (a `std::map` from constraint kind to a
  comparison closure) is an association list searched by key, exactly as
  `Constraint::check` looks the kind up before applying the closure.
-/

namespace MagicSquare

/-- `Matrix::ConstaintType` (spelling as in the source). -/
inductive ConstaintType where
  | equal
  | notEqual
  | greater
  | greaterOrEqual
  | less
  | lessOrEqual
deriving DecidableEq, BEq, Repr

/-- `Matrix::Constraint`: a comparison kind plus a reference value. -/
structure Constraint where
  type : ConstaintType
  value : Int
deriving DecidableEq, Repr

/-- `Matrix::Constraint::validationMap`: kind → comparison function, built
from the initializer at the bottom of `Matrix.h`. -/
def validationMap : List (ConstaintType × (Int → Int → Bool)) :=
  [ (ConstaintType.equal, fun valToCheck value => valToCheck == value),
    (ConstaintType.notEqual, fun valToCheck value => valToCheck != value),
    (ConstaintType.greater, fun valToCheck value => decide (valToCheck > value)),
    (ConstaintType.greaterOrEqual, fun valToCheck value => decide (valToCheck >= value)),
    (ConstaintType.less, fun valToCheck value => decide (valToCheck < value)),
    (ConstaintType.lessOrEqual, fun valToCheck value => decide (valToCheck <= value)) ]

/-- The `validationMap.find(type)` lookup performed by `Constraint::check`. -/
def findValidation (t : ConstaintType) : Option (Int → Int → Bool) :=
  (validationMap.find? (fun p => p.1 == t)).map Prod.snd

/-- `Constraint::check(val)`: look the kind up in `validationMap` and apply
the found comparison to `(val, value)`.  The source `assert`s the lookup
succeeded; the `none` branch is the (never reached) assertion failure. -/
def Constraint.check (c : Constraint) (val : Int) : Bool :=
  match findValidation c.type with
  | some f => f val c.value
  | none => false

/-- `Matrix::ExceptionType`, in declaration order. -/
inductive ExceptionType where
  | constraintViolation
  | invalidSize
  | outOfRange
deriving DecidableEq, Repr

/-- The numeric value of an `ExceptionType` enumerator, used to index
`Matrix::errMsg`. -/
def ExceptionType.idx : ExceptionType → Nat
  | .constraintViolation => 0
  | .invalidSize => 1
  | .outOfRange => 2

/-- `Matrix::errMsg`, the static message table, texts exactly as in the
source. -/
def errMsg : List String :=
  [ "One or more elements of matrix violate constraints.",
    "All rows in matrix must have the same size.",
    "Index is out of range when requested raw/column data." ]

/-- `Matrix::Exception::what()`: returns `errMsg[m_type]`. -/
def Exception.what (t : ExceptionType) : String :=
  errMsg.getD t.idx ""

/-- Outcome of a member-function call: normal return, a thrown
`Matrix::Exception` of the given kind, or undefined behaviour (an
out-of-bounds `vector::operator[]` access in the source). -/
inductive MResult (α : Type) where
  | ok : α → MResult α
  | err : ExceptionType → MResult α
  | ub : MResult α
deriving DecidableEq, Repr

/-- The `Matrix` object state: `m_numRows`, `m_numColumns`, `m_Data`,
`m_Constraints`. -/
structure Matrix where
  m_numRows : Nat
  m_numColumns : Nat
  m_Data : List (List Int)
  m_Constraints : List Constraint
deriving DecidableEq, Repr

/-- `Matrix::checkConstraints(int)` unrolled over a constraint list:
test the value against each constraint in order, throwing
`constraintViolation` at the first failure. -/
def checkConstraintsVal (cs : List Constraint) (value : Int) : MResult Unit :=
  match cs with
  | [] => .ok ()
  | c :: rest =>
    if c.check value then checkConstraintsVal rest value
    else .err .constraintViolation

/-- `Matrix::checkConstraints(const vector<int>&)`: run the single-value
check over the values in index order, propagating the first throw. -/
def checkConstraintsSeq (cs : List Constraint) (values : List Int) : MResult Unit :=
  match values with
  | [] => .ok ()
  | v :: rest =>
    match checkConstraintsVal cs v with
    | .ok _ => checkConstraintsSeq cs rest
    | .err e => .err e
    | .ub => .ub

/-- The size-based constructor
`Matrix(numRows, numColumns, fillWith, constraints)`: validate `fillWith`
against every constraint, then build `numRows` rows of `numColumns` copies
of `fillWith`. -/
def Matrix.mkFill (numRows numColumns : Nat) (fillWith : Int)
    (constraints : List Constraint) : MResult Matrix :=
  match checkConstraintsVal constraints fillWith with
  | .err e => .err e
  | .ub => .ub
  | .ok _ =>
    .ok { m_numRows := numRows
          m_numColumns := numColumns
          m_Data := List.replicate numRows (List.replicate numColumns fillWith)
          m_Constraints := constraints }

/-- The grid-based constructor `Matrix(data, fillWith, constraints)`:
`m_numRows = data.size()`, `m_numColumns` is the first row's length
(0 when `data` is empty), and every row must match the first row's length
or `invalidSize` is thrown.  The supplied elements are never checked
against `constraints`, and `fillWith` is never read. -/
def Matrix.mkGrid (data : List (List Int)) (fillWith : Int)
    (constraints : List Constraint) : MResult Matrix :=
  match data with
  | [] =>
    .ok { m_numRows := 0, m_numColumns := 0, m_Data := [], m_Constraints := constraints }
  | first :: _ =>
    if data.all (fun row => row.length == first.length) then
      .ok { m_numRows := data.length
            m_numColumns := first.length
            m_Data := data
            m_Constraints := constraints }
    else .err .invalidSize

/-- `Matrix::getRow(row)`: throw `outOfRange` when `row > m_numRows`,
otherwise return `m_Data[row]` (undefined behaviour when that access is
out of bounds). -/
def Matrix.getRow (m : Matrix) (row : Nat) : MResult (List Int) :=
  if row > m.m_numRows then .err .outOfRange
  else
    match m.m_Data[row]? with
    | some r => .ok r
    | none => .ub

/-- `Matrix::setRow(row, data)`: index check (`row > m_numRows`), size
check, constraint check, then `m_Data[row] = data` (undefined behaviour
when `row` is past the end of `m_Data`). -/
def Matrix.setRow (m : Matrix) (row : Nat) (data : List Int) : MResult Matrix :=
  if row > m.m_numRows then .err .outOfRange
  else if data.length != m.m_numColumns then .err .invalidSize
  else
    match checkConstraintsSeq m.m_Constraints data with
    | .err e => .err e
    | .ub => .ub
    | .ok _ =>
      if row < m.m_Data.length then .ok { m with m_Data := m.m_Data.set row data }
      else .ub

/-- The column-collecting loop of `Matrix::getColumn`: for each row push
`row[col]` (undefined behaviour when `col` is out of that row's bounds). -/
def collectColumn (col : Nat) : List (List Int) → MResult (List Int)
  | [] => .ok []
  | r :: rest =>
    match r[col]? with
    | none => .ub
    | some v =>
      match collectColumn col rest with
      | .ok tl => .ok (v :: tl)
      | .err e => .err e
      | .ub => .ub

/-- `Matrix::getColumn(col)`: the source checks `col > m_numRows` (sic),
then collects `row[col]` for every row into a local vector and returns it
(as a dangling rvalue reference; the value computed is modelled here, the
lifetime defect is outside the embedding). -/
def Matrix.getColumn (m : Matrix) (col : Nat) : MResult (List Int) :=
  if col > m.m_numRows then .err .outOfRange
  else collectColumn col m.m_Data

/-- The writing loop of `Matrix::setColumn`: `m_Data[row++][col] = val`
for each `val` in `data`; undefined behaviour when the loop runs past the
rows of `m_Data` or `col` is out of a row's bounds. -/
def writeColumn (col : Nat) : List (List Int) → List Int → MResult (List (List Int))
  | rows, [] => .ok rows
  | [], _ :: _ => .ub
  | r :: rest, v :: vs =>
    if col < r.length then
      match writeColumn col rest vs with
      | .ok rest2 => .ok (r.set col v :: rest2)
      | .err e => .err e
      | .ub => .ub
    else .ub

/-- `Matrix::setColumn(col, data)`: index check (`col > m_numColumns`),
size check, constraint check, then the element-wise write loop. -/
def Matrix.setColumn (m : Matrix) (col : Nat) (data : List Int) : MResult Matrix :=
  if col > m.m_numColumns then .err .outOfRange
  else if data.length != m.m_numRows then .err .invalidSize
  else
    match checkConstraintsSeq m.m_Constraints data with
    | .err e => .err e
    | .ub => .ub
    | .ok _ =>
      match writeColumn col m.m_Data data with
      | .ok rows => .ok { m with m_Data := rows }
      | .err e => .err e
      | .ub => .ub

/-- Invariant (2) of the spec: every stored element satisfies every
constraint. -/
def Matrix.allSatisfy (m : Matrix) : Prop :=
  ∀ row ∈ m.m_Data, ∀ v ∈ row, ∀ c ∈ m.m_Constraints, c.check v = true

instance (m : Matrix) : Decidable m.allSatisfy := by
  unfold Matrix.allSatisfy
  infer_instance

/-! ## Helper lemmas about the validation dispatch -/

theorem checkConstraintsVal_ok_iff (cs : List Constraint) (v : Int) :
    checkConstraintsVal cs v = .ok () ↔ ∀ c ∈ cs, c.check v = true := by
  induction cs with
  | nil => simp [checkConstraintsVal]
  | cons c rest ih =>
    by_cases h : c.check v = true
    · simp [checkConstraintsVal, h, ih]
    · simp only [checkConstraintsVal, h, if_neg, Bool.false_eq_true, ite_false]
      constructor
      · intro hcontra
        exact absurd hcontra (by simp)
      · intro hall
        exact absurd (hall c (List.mem_cons_self c rest)) h

theorem checkConstraintsVal_ok_or_err (cs : List Constraint) (v : Int) :
    checkConstraintsVal cs v = .ok () ∨
      checkConstraintsVal cs v = .err .constraintViolation := by
  induction cs with
  | nil => exact Or.inl rfl
  | cons c rest ih =>
    by_cases h : c.check v = true
    · simpa [checkConstraintsVal, h] using ih
    · right
      simp [checkConstraintsVal, h]

theorem checkConstraintsSeq_ok_iff (cs : List Constraint) (vs : List Int) :
    checkConstraintsSeq cs vs = .ok () ↔ ∀ v ∈ vs, ∀ c ∈ cs, c.check v = true := by
  induction vs with
  | nil => simp [checkConstraintsSeq]
  | cons v rest ih =>
    rcases checkConstraintsVal_ok_or_err cs v with h | h
    · have hv := (checkConstraintsVal_ok_iff cs v).1 h
      simp only [checkConstraintsSeq, h, ih, List.mem_cons]
      constructor
      · intro hr v' hv'
        rcases hv' with rfl | hv'
        · exact hv
        · exact hr v' hv'
      · intro hall v' hv'
        exact hall v' (Or.inr hv')
    · have hv : ¬ ∀ c ∈ cs, c.check v = true := by
        intro hall
        rw [(checkConstraintsVal_ok_iff cs v).2 hall] at h
        exact absurd h (by simp)
      simp only [checkConstraintsSeq, h, List.mem_cons]
      constructor
      · intro hcontra
        exact absurd hcontra (by simp)
      · intro hall
        exact absurd (hall v (Or.inl rfl)) hv

/-! ## Claim theorems -/

/-- C1: the grid-based constructor is claimed to validate every element of
`data` against every constraint and fail with `ConstraintViolation` on a
violation.  The source never performs that validation: on
`data = [[10]]` with the single constraint `lessOrEqual 9` construction
succeeds and stores `10`, although `10` fails the constraint. -/
theorem mkGrid_skips_constraint_validation :
    Matrix.mkGrid [[10]] 0 [⟨ConstaintType.lessOrEqual, 9⟩] =
      .ok ⟨1, 1, [[10]], [⟨ConstaintType.lessOrEqual, 9⟩]⟩ ∧
    Constraint.check ⟨ConstaintType.lessOrEqual, 9⟩ 10 = false := by
  decide

/-- C2: the invariant "every stored element satisfies every constraint
after every successful public operation" is claimed to be established at
construction.  The grid-based constructor breaks it: on `data = [[5]]`
with the single constraint `equal 3` construction succeeds, yet the
resulting matrix stores an element violating its constraint set. -/
theorem grid_ctor_breaks_invariant :
    Matrix.mkGrid [[5]] 0 [⟨ConstaintType.equal, 3⟩] =
      .ok ⟨1, 1, [[5]], [⟨ConstaintType.equal, 3⟩]⟩ ∧
    ¬ Matrix.allSatisfy ⟨1, 1, [[5]], [⟨ConstaintType.equal, 3⟩]⟩ := by
  decide

/-- C3: index checks are claimed to raise `OutOfRange` exactly outside
`[0, numRows)` / `[0, numColumns)`.  On the 1×3 matrix `[[1,2,3]]`:
`getRow 1` (index `= numRows`, out of range) passes the source's
`row > m_numRows` check and hits an out-of-bounds read instead of raising
`OutOfRange`; `getColumn 2` (a valid column index, `2 < 3`) raises
`OutOfRange` because the source compares the column index against
`m_numRows`; and on the 1×1 matrix `[[0]]`, `setColumn 1 [5]`
(column index `= numColumns`, out of range) passes the check and hits an
out-of-bounds write instead of raising `OutOfRange`. -/
theorem bounds_check_off_by_one :
    Matrix.getRow ⟨1, 3, [[1, 2, 3]], []⟩ 1 = .ub ∧
    Matrix.getColumn ⟨1, 3, [[1, 2, 3]], []⟩ 2 = .err .outOfRange ∧
    Matrix.setColumn ⟨1, 1, [[0]], []⟩ 1 [5] = .ub := by
  decide

/-- C4: failures of `setRow`/`setColumn` are claimed to be checked in the
priority order `OutOfRange`, then `InvalidSize`, then
`ConstraintViolation`.  On the 1×1 matrix `[[0]]`, `setRow 1 []` has a
bad index (`1` is outside `[0, 1)`) and a wrong length, so `OutOfRange`
should win; the source's `row > m_numRows` check lets index `1` through
and `InvalidSize` is raised instead. -/
theorem setRow_error_priority_violated :
    Matrix.setRow ⟨1, 1, [[0]], []⟩ 1 [] = .err .invalidSize := by
  decide

/-- C5: the size-based constructor yields `numRows` rows of `numColumns`
copies of `fillValue` when `fillValue` satisfies every constraint, and
fails with `ConstraintViolation` (producing no matrix) when `fillValue`
fails some constraint. -/
theorem mkFill_correct (nr nc : Nat) (f : Int) (cs : List Constraint) :
    ((∀ c ∈ cs, c.check f = true) →
      Matrix.mkFill nr nc f cs =
        .ok ⟨nr, nc, List.replicate nr (List.replicate nc f), cs⟩) ∧
    ((∃ c ∈ cs, c.check f = false) →
      Matrix.mkFill nr nc f cs = .err .constraintViolation) := by
  constructor
  · intro hall
    unfold Matrix.mkFill
    rw [(checkConstraintsVal_ok_iff cs f).2 hall]
  · rintro ⟨c, hc, hfc⟩
    have herr : checkConstraintsVal cs f = .err .constraintViolation := by
      rcases checkConstraintsVal_ok_or_err cs f with h | h
      · have := (checkConstraintsVal_ok_iff cs f).1 h c hc
        rw [hfc] at this
        exact absurd this (by simp)
      · exact h
    unfold Matrix.mkFill
    rw [herr]

/-- Witness for C5 at concrete inputs: `mkFill 2 3 5` with constraint
`greaterOrEqual 0` succeeds with a 2×3 grid of fives, and `mkFill 1 1 10`
with constraint `lessOrEqual 9` fails with `constraintViolation`. -/
theorem mkFill_correct_witness :
    Matrix.mkFill 2 3 5 [⟨ConstaintType.greaterOrEqual, 0⟩] =
      .ok ⟨2, 3, List.replicate 2 (List.replicate 3 5),
           [⟨ConstaintType.greaterOrEqual, 0⟩]⟩ ∧
    Matrix.mkFill 1 1 10 [⟨ConstaintType.lessOrEqual, 9⟩] =
      .err .constraintViolation :=
  ⟨(mkFill_correct 2 3 5 [⟨ConstaintType.greaterOrEqual, 0⟩]).1 (by decide),
   (mkFill_correct 1 1 10 [⟨ConstaintType.lessOrEqual, 9⟩]).2
     ⟨⟨ConstaintType.lessOrEqual, 9⟩, by decide, by decide⟩⟩

/-- C6: `getColumn` with a valid index is claimed to return the column,
one element per row.  On the 1×4 matrix `[[1,2,3,4]]`, column index `2`
is valid (`2 < numColumns = 4`), and the column's content is `[3]`, yet
the source raises `OutOfRange` because it compares the column index
against `m_numRows = 1`.  (The source additionally returns the collected
vector as an rvalue reference to a destroyed local, a lifetime defect
outside this value-level embedding.) -/
theorem getColumn_wrong_bound :
    Matrix.getColumn ⟨1, 4, [[1, 2, 3, 4]], []⟩ 2 = .err .outOfRange ∧
    collectColumn 2 [[1, 2, 3, 4]] = .ok [3] := by
  decide

/-- C7: `Constraint::check` finds its kind in `validationMap` (no failure
path for the six recognized kinds) and returns `true` exactly when the
candidate stands in the kind's comparison relation to the reference
value. -/
theorem check_correct (c : Constraint) (v : Int) :
    (findValidation c.type).isSome = true ∧
    (c.check v = true ↔
      match c.type with
      | .equal => v = c.value
      | .notEqual => v ≠ c.value
      | .greater => v > c.value
      | .greaterOrEqual => v ≥ c.value
      | .less => v < c.value
      | .lessOrEqual => v ≤ c.value) := by
  obtain ⟨t, r⟩ := c
  cases t
  case equal =>
    refine ⟨rfl, ?_⟩
    show (v == r) = true ↔ v = r
    simp
  case notEqual =>
    refine ⟨rfl, ?_⟩
    show (v != r) = true ↔ v ≠ r
    simp
  case greater =>
    refine ⟨rfl, ?_⟩
    show decide (v > r) = true ↔ v > r
    simp
  case greaterOrEqual =>
    refine ⟨rfl, ?_⟩
    show decide (v ≥ r) = true ↔ v ≥ r
    simp
  case less =>
    refine ⟨rfl, ?_⟩
    show decide (v < r) = true ↔ v < r
    simp
  case lessOrEqual =>
    refine ⟨rfl, ?_⟩
    show decide (v ≤ r) = true ↔ v ≤ r
    simp

/-- C8 counterexample: the `OutOfRange` message is claimed to be exactly
"Index is out of range when requested row/column data."; the source's
message table spells it "raw/column". -/
theorem outOfRange_msg_counterexample :
    Exception.what .outOfRange ≠
      "Index is out of range when requested row/column data." := by
  decide

/-- C8 amended: every error kind reports its fixed message from the
source's table; the `OutOfRange` text reads "raw/column" (sic). -/
theorem errMsg_fixed_texts :
    Exception.what .constraintViolation =
      "One or more elements of matrix violate constraints." ∧
    Exception.what .invalidSize =
      "All rows in matrix must have the same size." ∧
    Exception.what .outOfRange =
      "Index is out of range when requested raw/column data." := by
  decide

/-- C9: for a shape-consistent matrix, a valid row index, and a
replacement row of correct length whose elements satisfy every
constraint, `setRow` succeeds, `getRow` then returns exactly the new row,
and every other row — as well as the shape and the constraint set, which
the result literal leaves untouched — is unchanged. -/
theorem setRow_getRow_roundtrip (m : Matrix) (i : Nat) (data : List Int)
    (hwf : m.m_Data.length = m.m_numRows)
    (hi : i < m.m_numRows)
    (hlen : data.length = m.m_numColumns)
    (hok : ∀ v ∈ data, ∀ c ∈ m.m_Constraints, c.check v = true) :
    Matrix.setRow m i data = .ok { m with m_Data := m.m_Data.set i data } ∧
    Matrix.getRow { m with m_Data := m.m_Data.set i data } i = .ok data ∧
    (∀ j, j ≠ i → (m.m_Data.set i data)[j]? = m.m_Data[j]?) := by
  have hidx : ¬ i > m.m_numRows := by omega
  have hil : i < m.m_Data.length := by omega
  refine ⟨?_, ?_, ?_⟩
  · unfold Matrix.setRow
    rw [(checkConstraintsSeq_ok_iff m.m_Constraints data).2 hok]
    simp [hidx, hlen, hil]
  · unfold Matrix.getRow
    have hset : (m.m_Data.set i data)[i]? = some data :=
      List.getElem?_set_eq_of_lt data hil
    simp [hidx, hset]
  · intro j hj
    exact List.getElem?_set_ne hj.symm

/-- Witness for C9: replacing row 0 of the 2×2 matrix `[[1,2],[3,4]]`
(constraint `greaterOrEqual 0`) with `[5,6]`. -/
theorem setRow_getRow_roundtrip_witness :
    Matrix.setRow ⟨2, 2, [[1, 2], [3, 4]], [⟨ConstaintType.greaterOrEqual, 0⟩]⟩
        0 [5, 6] =
      .ok { (⟨2, 2, [[1, 2], [3, 4]], [⟨ConstaintType.greaterOrEqual, 0⟩]⟩ : Matrix) with
            m_Data := [[1, 2], [3, 4]].set 0 [5, 6] } ∧
    Matrix.getRow
        { (⟨2, 2, [[1, 2], [3, 4]], [⟨ConstaintType.greaterOrEqual, 0⟩]⟩ : Matrix) with
          m_Data := [[1, 2], [3, 4]].set 0 [5, 6] } 0 = .ok [5, 6] ∧
    (∀ j, j ≠ 0 →
      ([[1, 2], [3, 4]].set 0 [5, 6] : List (List Int))[j]? =
        ([[1, 2], [3, 4]] : List (List Int))[j]?) :=
  setRow_getRow_roundtrip
    ⟨2, 2, [[1, 2], [3, 4]], [⟨ConstaintType.greaterOrEqual, 0⟩]⟩ 0 [5, 6]
    (by decide) (by decide) (by decide) (by decide)

/-- C10: the grid-based constructor never reads its `fillWith` parameter,
so any two fill values yield identical results — same shape, elements,
constraints, and the same success or failure. -/
theorem mkGrid_ignores_fillWith (data : List (List Int)) (f1 f2 : Int)
    (cs : List Constraint) :
    Matrix.mkGrid data f1 cs = Matrix.mkGrid data f2 cs := rfl

end MagicSquare
